import Mathlib

/-!
Shallow embedding of the Nimbus consensus RPC adapter
(src/consensus/src/rpc/nimbus_rpc.rs) and proofs about its behaviour.

The adapter builds request URLs from a stored endpoint, sends GET requests
through a retrying HTTP client, decodes the JSON response envelopes and
returns the inner domain payloads, tagging every failure with the name of
the operation that failed.

Modelling conventions:
* JSON values are an inductive `Json`; response bodies arrive already
  parsed (JSON text parsing is below the level of the claims).
* The network is an oracle `net : String → Nat → AttemptResult` giving the
  outcome of each physical attempt (by URL and attempt index); the retry
  middleware that the constructor installs is `sendWithPolicy`.
* The domain types (Bootstrap, Update, FinalityUpdate, OptimisticUpdate,
  BeaconBlock) live in the crate types module, which is not part of the
  given source; their serde decoders are abstracted as a parameter
  `inner : Json → Except String α`, and theorems instantiate it with
  `pure`, which keeps the payload as its JSON value.
-/

set_option autoImplicit false

namespace NimbusRpcModel

universe u

/-- JSON values, as produced by parsing a response body. -/
inductive Json where
  | null : Json
  | bool (b : Bool) : Json
  | num (n : Int) : Json
  | str (s : String) : Json
  | arr (elems : List Json) : Json
  | obj (fields : List (String × Json)) : Json

/-- First value bound to `key` in an object field list; `none` if the field
is absent.  Models serde field lookup on a struct with named fields
(unknown fields are ignored, as serde does by default). -/
def jsonLookup (key : String) : List (String × Json) → Option Json
  | [] => none
  | (k, v) :: rest => if k = key then some v else jsonLookup key rest

/-- Sequential element-wise decoding of a JSON array, as serde does for a
Vec: the first failing element aborts the whole decode. -/
def decodeListWith {α : Type u} (dec : Json → Except String α) :
    List Json → Except String (List α)
  | [] => .ok []
  | x :: xs =>
    match dec x with
    | .error e => .error e
    | .ok v =>
      match decodeListWith dec xs with
      | .error e => .error e
      | .ok vs => .ok (v :: vs)

/-- The response envelope shape shared by BootstrapResponse,
UpdateData, FinalityUpdateResponse, OptimisticUpdateResponse,
BeaconBlockResponse and SpecResponse in the source: a struct with a single
field named data. -/
structure DataEnvelope (α : Type u) where
  data : α

/-- Serde decoding of a data envelope struct: the body must be a JSON
object with a data field, whose value is decoded by the inner decoder. -/
def decodeDataEnvelope {α : Type u} (inner : Json → Except String α) :
    Json → Except String (DataEnvelope α)
  | .obj fields =>
    match jsonLookup "data" fields with
    | some v =>
      match inner v with
      | .ok a => .ok ⟨a⟩
      | .error e => .error e
    | none => .error "missing field data"
  | _ => .error "invalid type: expected a struct"

/-- The BeaconBlockData struct of the source: the inner object of a block
response, of which only the message field is kept (a sibling signature
field, if present, is ignored by serde). -/
structure BeaconBlockData (α : Type u) where
  message : α

/-- Serde decoding of BeaconBlockData: looks up the message field. -/
def decodeBeaconBlockData {α : Type u} (inner : Json → Except String α) :
    Json → Except String (BeaconBlockData α)
  | .obj fields =>
    match jsonLookup "message" fields with
    | some v =>
      match inner v with
      | .ok a => .ok ⟨a⟩
      | .error e => .error e
    | none => .error "missing field message"
  | _ => .error "invalid type: expected a struct"

/-- Accumulator loop for decimal string parsing: consumes digits,
rejecting the whole string at the first non-digit character. -/
def parseDecimalAux : List Char → Nat → Option Nat
  | [], acc => some acc
  | c :: rest, acc =>
    if c.isDigit then parseDecimalAux rest (acc * 10 + (c.toNat - 48)) else none

/-- Decimal parsing of a string: a nonempty run of decimal digits denotes
the evident number; anything else is rejected. -/
def parseDecimal (s : String) : Option Nat :=
  match s.data with
  | [] => none
  | l => parseDecimalAux l 0

/-- Modelled from the spec: the custom deserializer u64_deserialize named
by the Spec struct (defined in the crate types module, which is not under
src/).  The spec states the DEPOSIT_NETWORK_ID field may arrive as either
a JSON number or a numeric string and must be coerced to an unsigned
64-bit integer in either case; any other value fails the decode. -/
def u64_deserialize : Json → Except String Nat
  | .num n =>
    if 0 ≤ n ∧ n < (2 : Int) ^ 64 then .ok n.toNat
    else .error "invalid value: integer out of range of u64"
  | .str s =>
    match parseDecimal s with
    | some n => if n < 2 ^ 64 then .ok n else .error "invalid value: integer out of range of u64"
    | none => .error "invalid value: expected a numeric string"
  | _ => .error "invalid type: expected u64 or numeric string"

/-- The Spec struct of the source: a single chain_id field renamed from
DEPOSIT_NETWORK_ID and decoded with u64_deserialize; all other fields of
the spec object are ignored. -/
structure Spec where
  chain_id : Nat

/-- Serde decoding of the Spec struct. -/
def decodeSpec : Json → Except String Spec
  | .obj fields =>
    match jsonLookup "DEPOSIT_NETWORK_ID" fields with
    | some v =>
      match u64_deserialize v with
      | .ok n => .ok ⟨n⟩
      | .error e => .error e
    | none => .error "missing field DEPOSIT_NETWORK_ID"
  | _ => .error "invalid type: expected a struct"

/-- Modelled from the spec: the protocol-defined ceiling on the updates
batch size, from the crate constants module (not under src/); the beacon
light-client wire protocol fixes it at 128 (a u8 in the source, since the
code takes cmp min against a u8 count). -/
def MAX_REQUEST_LIGHT_CLIENT_UPDATES : Nat := 128

/-- Decimal digit character, as produced by the Rust Display
implementation for unsigned integers. -/
def decimalDigitChar (d : Nat) : Char := Char.ofNat (48 + d)

/-- Fuel-driven accumulator loop producing the decimal digits of n in
front of acc.  Fuel at least n + 1 is always enough. -/
def natReprAux : Nat → Nat → List Char → List Char
  | 0, _, acc => acc
  | _ + 1, 0, acc => acc
  | fuel + 1, n, acc => natReprAux fuel (n / 10) (decimalDigitChar (n % 10) :: acc)

/-- Decimal rendering of an unsigned integer, as the Rust format macro
does for u8 and u64 arguments. -/
def natRepr (n : Nat) : String :=
  if n = 0 then "0" else ⟨natReprAux (n + 1) n []⟩

/-- Lower-case hex character for a value below 16, as produced by the hex
crate encode function. -/
def hexDigitChar (d : Nat) : Char :=
  if d < 10 then Char.ofNat (48 + d) else Char.ofNat (87 + d)

/-- The two lower-case hex characters encoding one byte, most significant
nibble first. -/
def hexByte (b : Nat) : List Char := [hexDigitChar (b / 16), hexDigitChar (b % 16)]

/-- The hex crate encode function: lower-case hex, two characters per
byte, no prefix, any input length accepted. -/
def hexEncode (bytes : List Nat) : String := ⟨(bytes.map hexByte).flatten⟩

/-- Characters allowed in a lower-case hex encoding: decimal digits and
the letters a to f. -/
def isLowerHexDigit (c : Char) : Bool :=
  c.isDigit || ('a' ≤ c && c ≤ 'f')

/-- Longest run of digit characters read from the front of a reversed
character list. -/
def digitRunRev : List Char → List Char
  | [] => []
  | c :: rest => if c.isDigit then c :: digitRunRev rest else []

/-- The maximal numeric suffix of a string.  The updates URL ends with the
count query parameter, whose value is a decimal number preceded by the
non-digit character =, so this observation reads off exactly the count
query parameter value of a constructed updates URL. -/
def numericSuffix (s : String) : String :=
  ⟨(digitRunRev s.data.reverse).reverse⟩

/-- One physical HTTP attempt either yields a body, a transient failure
(network error or 5xx response), or a non-transient (fatal) failure. -/
inductive AttemptResult where
  | ok (body : Json) : AttemptResult
  | transient (cause : String) : AttemptResult
  | fatal (cause : String) : AttemptResult

/-- Outcome of one logical send after the retry middleware has run. -/
inductive HttpOutcome where
  | success (body : Json) : HttpOutcome
  | failure (cause : String) : HttpOutcome

/-- The retry policy the constructor builds: an exponential backoff with
the configured backoff exponent, capped at the configured number of
retries.  The backoff exponent only shapes the waiting times between
attempts, which are not observable in this model. -/
structure RetryPolicy where
  backoffExponent : Nat
  maxRetries : Nat

/-- The ExponentialBackoff builder chain of the source: backoff_exponent
followed by build_with_max_retries. -/
def buildRetryPolicy (backoffExponent maxRetries : Nat) : RetryPolicy :=
  { backoffExponent := backoffExponent, maxRetries := maxRetries }

/-- Modelled from the spec: the reqwest-retry transient-failure middleware
(an external crate, not under src/).  Attempt i is taken; a success is
returned at once, a fatal failure is never retried, and a transient
failure is retried while retry budget remains.  The argument r is the
remaining retry budget, starting at maxRetries. -/
def retryLoop (attempt : Nat → AttemptResult) (i : Nat) : Nat → HttpOutcome
  | 0 =>
    match attempt i with
    | .ok b => .success b
    | .transient c => .failure c
    | .fatal c => .failure c
  | r + 1 =>
    match attempt i with
    | .ok b => .success b
    | .transient _ => retryLoop attempt (i + 1) r
    | .fatal c => .failure c

/-- One logical send through the middleware client: attempt 0 first, then
up to maxRetries further attempts on transient failures. -/
def sendWithPolicy (policy : RetryPolicy) (attempt : Nat → AttemptResult) : HttpOutcome :=
  retryLoop attempt 0 policy.maxRetries

/-- The error type every operation returns on failure: the name of the
operation that failed together with the underlying transport or decode
cause. -/
structure RpcError where
  operation : String
  cause : String

/-- The RpcError constructor used by every map_err in the source. -/
def RpcError.new (operation : String) (cause : String) : RpcError :=
  { operation := operation, cause := cause }

/-- The NimbusRpc struct: the endpoint string and the middleware client,
represented by its retry policy. -/
structure NimbusRpc where
  rpc : String
  client : RetryPolicy

/-- The constructor: stores the endpoint verbatim and builds the client
with exponential backoff, backoff exponent 1, at most 3 retries.  It is a
total function: no input is rejected and no inspection of the endpoint
happens here. -/
def new (rpc : String) : NimbusRpc :=
  { rpc := rpc, client := buildRetryPolicy 1 3 }

/-- The URL built by get_bootstrap: the endpoint, the bootstrap path, the
literal 0x, then the hex encoding of the block root. -/
def bootstrapUrl (rpc : String) (block_root : List Nat) : String :=
  rpc ++ "/eth/v1/beacon/light_client/bootstrap/0x" ++ hexEncode block_root

/-- The URL built by get_updates after clamping, with start_period and
count query parameters. -/
def updatesUrl (rpc : String) (period count : Nat) : String :=
  rpc ++ "/eth/v1/beacon/light_client/updates?start_period=" ++ natRepr period
    ++ "&count=" ++ natRepr count

/-- The URL built by get_finality_update. -/
def finalityUpdateUrl (rpc : String) : String :=
  rpc ++ "/eth/v1/beacon/light_client/finality_update"

/-- The URL built by get_optimistic_update. -/
def optimisticUpdateUrl (rpc : String) : String :=
  rpc ++ "/eth/v1/beacon/light_client/optimistic_update"

/-- The URL built by get_block, with the slot as a path segment. -/
def blocksUrl (rpc : String) (slot : Nat) : String :=
  rpc ++ "/eth/v2/beacon/blocks/" ++ natRepr slot

/-- The URL built by chain_id. -/
def specUrl (rpc : String) : String :=
  rpc ++ "/eth/v1/config/spec"

/-- The network oracle: for a URL and a physical attempt index, the result
of that attempt. -/
def Network : Type := String → Nat → AttemptResult

/-- get_bootstrap: hex-encode the root, build the URL, send through the
retrying client, decode a BootstrapResponse envelope, return its data;
both failure paths are tagged bootstrap. -/
def get_bootstrap {α : Type u} (self : NimbusRpc) (net : Network)
    (inner : Json → Except String α) (block_root : List Nat) : Except RpcError α :=
  let req := bootstrapUrl self.rpc block_root
  match sendWithPolicy self.client (net req) with
  | .failure e => .error (RpcError.new "bootstrap" e)
  | .success body =>
    match decodeDataEnvelope inner body with
    | .error e => .error (RpcError.new "bootstrap" e)
    | .ok res => .ok res.data

/-- get_updates: clamp the count to the protocol maximum, build the URL,
send, decode a list of UpdateData envelopes, return the data of each in
order; both failure paths are tagged updates. -/
def get_updates {α : Type u} (self : NimbusRpc) (net : Network)
    (inner : Json → Except String α) (period count : Nat) : Except RpcError (List α) :=
  let count := min count MAX_REQUEST_LIGHT_CLIENT_UPDATES
  let req := updatesUrl self.rpc period count
  match sendWithPolicy self.client (net req) with
  | .failure e => .error (RpcError.new "updates" e)
  | .success body =>
    match body with
    | .arr elems =>
      match decodeListWith (decodeDataEnvelope inner) elems with
      | .error e => .error (RpcError.new "updates" e)
      | .ok res => .ok (res.map (fun d => d.data))
    | _ => .error (RpcError.new "updates" "invalid type: expected a sequence")

/-- get_finality_update: build the URL, send, decode a
FinalityUpdateResponse envelope, return its data; both failure paths are
tagged finality_update. -/
def get_finality_update {α : Type u} (self : NimbusRpc) (net : Network)
    (inner : Json → Except String α) : Except RpcError α :=
  let req := finalityUpdateUrl self.rpc
  match sendWithPolicy self.client (net req) with
  | .failure e => .error (RpcError.new "finality_update" e)
  | .success body =>
    match decodeDataEnvelope inner body with
    | .error e => .error (RpcError.new "finality_update" e)
    | .ok res => .ok res.data

/-- get_optimistic_update: build the URL, send, decode an
OptimisticUpdateResponse envelope, return its data; both failure paths are
tagged optimistic_update. -/
def get_optimistic_update {α : Type u} (self : NimbusRpc) (net : Network)
    (inner : Json → Except String α) : Except RpcError α :=
  let req := optimisticUpdateUrl self.rpc
  match sendWithPolicy self.client (net req) with
  | .failure e => .error (RpcError.new "optimistic_update" e)
  | .success body =>
    match decodeDataEnvelope inner body with
    | .error e => .error (RpcError.new "optimistic_update" e)
    | .ok res => .ok res.data

/-- get_block: build the URL from the slot, send, decode a
BeaconBlockResponse envelope holding a BeaconBlockData, return its inner
message; both failure paths are tagged blocks. -/
def get_block {α : Type u} (self : NimbusRpc) (net : Network)
    (inner : Json → Except String α) (slot : Nat) : Except RpcError α :=
  let req := blocksUrl self.rpc slot
  match sendWithPolicy self.client (net req) with
  | .failure e => .error (RpcError.new "blocks" e)
  | .success body =>
    match decodeDataEnvelope (decodeBeaconBlockData inner) body with
    | .error e => .error (RpcError.new "blocks" e)
    | .ok res => .ok res.data.message

/-- chain_id: build the spec URL, send, decode a SpecResponse envelope
holding a Spec, return its chain_id field; both failure paths are tagged
spec. -/
def chain_id (self : NimbusRpc) (net : Network) : Except RpcError Nat :=
  let req := specUrl self.rpc
  match sendWithPolicy self.client (net req) with
  | .failure e => .error (RpcError.new "spec" e)
  | .success body =>
    match decodeDataEnvelope decodeSpec body with
    | .error e => .error (RpcError.new "spec" e)
    | .ok res => .ok res.data.chain_id

/-- The trivial inner decoder: the domain types live outside the given
source, so theorems instantiate the abstract serde decoder with the
decoder that keeps the payload as its JSON value. -/
def rawJson : Json → Except String Json := fun j => .ok j

/-! Helper lemmas about the decimal rendering, the numeric suffix, the hex
encoding, the retry loop and the envelope decoders. -/

theorem decimalDigitChar_isDigit {d : Nat} (h : d < 10) :
    (decimalDigitChar d).isDigit = true := by
  interval_cases d <;> decide

theorem natReprAux_digits (fuel : Nat) :
    ∀ (n : Nat) (acc : List Char), (∀ c ∈ acc, c.isDigit = true) →
      ∀ c ∈ natReprAux fuel n acc, c.isDigit = true := by
  induction fuel with
  | zero => intro n acc hacc; simpa [natReprAux] using hacc
  | succ fuel ih =>
    intro n acc hacc
    cases n with
    | zero => simpa [natReprAux] using hacc
    | succ m =>
      simp only [natReprAux]
      apply ih
      intro c hc
      rcases List.mem_cons.mp hc with h | h
      · subst h; exact decimalDigitChar_isDigit (Nat.mod_lt _ (by omega))
      · exact hacc c h

theorem natRepr_digits (n : Nat) : ∀ c ∈ (natRepr n).data, c.isDigit = true := by
  unfold natRepr
  split
  · intro c hc; simp at hc; subst hc; decide
  · exact natReprAux_digits (n + 1) n [] (by intro c hc; simp at hc)

theorem digitRunRev_append {l : List Char} (hl : ∀ c ∈ l, c.isDigit = true)
    {d : Char} (hd : d.isDigit = false) (r : List Char) :
    digitRunRev (l ++ d :: r) = l := by
  induction l with
  | nil => simp [digitRunRev, hd]
  | cons c cs ih =>
    have hc : c.isDigit = true := hl c (by simp)
    simp only [List.cons_append, digitRunRev, hc, if_pos]
    exact congrArg (c :: ·) (ih (fun x hx => hl x (by simp [hx])))

theorem numericSuffix_append (a : String) (t : List Char)
    (ha : a.data.reverse = '=' :: t) (digits : List Char)
    (hd : ∀ c ∈ digits, c.isDigit = true) :
    numericSuffix (a ++ ⟨digits⟩) = ⟨digits⟩ := by
  unfold numericSuffix
  have hdata : (a ++ (⟨digits⟩ : String)).data = a.data ++ digits := String.data_append a ⟨digits⟩
  rw [hdata, List.reverse_append, ha]
  rw [digitRunRev_append (l := digits.reverse) (fun c hc => hd c (List.mem_reverse.mp hc)) (by decide) t]
  rw [List.reverse_reverse]

theorem numericSuffix_updatesUrl (rpc : String) (period count : Nat) :
    numericSuffix (updatesUrl rpc period count) = natRepr count := by
  have hcount : ("&count=" : String).data.reverse = '=' :: ['t', 'n', 'u', 'o', 'c', '&'] := rfl
  have ha : (rpc ++ "/eth/v1/beacon/light_client/updates?start_period="
        ++ natRepr period ++ "&count=").data.reverse
      = '=' :: (['t', 'n', 'u', 'o', 'c', '&'] ++ ((natRepr period).data.reverse
          ++ (("/eth/v1/beacon/light_client/updates?start_period=" : String).data.reverse
            ++ rpc.data.reverse))) := by
    rw [String.data_append, String.data_append, String.data_append,
      List.reverse_append, List.reverse_append, List.reverse_append, hcount]
    simp
  exact numericSuffix_append _ _ ha _ (natRepr_digits count)

theorem hexEncode_length (bytes : List Nat) : (hexEncode bytes).length = 2 * bytes.length := by
  induction bytes with
  | nil => rfl
  | cons b bs ih =>
    have h2 : (hexEncode (b :: bs)).length = 2 + (hexEncode bs).length := by
      show (hexByte b ++ (bs.map hexByte).flatten).length = 2 + ((bs.map hexByte).flatten).length
      rw [List.length_append, show (hexByte b).length = 2 from rfl, Nat.add_comm]
    rw [h2, ih]
    simp [List.length_cons]
    omega

theorem hexDigitChar_lowerHex {d : Nat} (h : d < 16) :
    isLowerHexDigit (hexDigitChar d) = true := by
  interval_cases d <;> decide

theorem hexEncode_chars (bytes : List Nat) (hb : ∀ b ∈ bytes, b < 256) :
    ∀ c ∈ (hexEncode bytes).data, isLowerHexDigit c = true := by
  induction bytes with
  | nil => intro c hc; simp [hexEncode] at hc
  | cons b bs ih =>
    intro c hc
    rw [show (hexEncode (b :: bs)).data = hexByte b ++ (hexEncode bs).data from rfl] at hc
    have hb256 : b < 256 := hb b (by simp)
    rcases List.mem_append.mp hc with h | h
    · simp [hexByte] at h
      rcases h with h | h
      · subst h
        exact hexDigitChar_lowerHex (Nat.div_lt_of_lt_mul (by omega))
      · subst h
        exact hexDigitChar_lowerHex (Nat.mod_lt _ (by omega))
    · exact ih (fun x hx => hb x (by simp [hx])) c h

theorem sendWithPolicy_first_ok (p : RetryPolicy) (attempt : Nat → AttemptResult)
    {b : Json} (h : attempt 0 = .ok b) : sendWithPolicy p attempt = .success b := by
  unfold sendWithPolicy
  cases p.maxRetries <;> simp [retryLoop, h]

theorem sendWithPolicy_first_fatal (p : RetryPolicy) (attempt : Nat → AttemptResult)
    {c : String} (h : attempt 0 = .fatal c) : sendWithPolicy p attempt = .failure c := by
  unfold sendWithPolicy
  cases p.maxRetries <;> simp [retryLoop, h]

theorem sendWithPolicy3_two_transient_then_ok (x : Nat) (attempt : Nat → AttemptResult)
    {c0 c1 : String} {b : Json} (h0 : attempt 0 = .transient c0)
    (h1 : attempt 1 = .transient c1) (h2 : attempt 2 = .ok b) :
    sendWithPolicy (buildRetryPolicy x 3) attempt = .success b := by
  simp [sendWithPolicy, buildRetryPolicy, retryLoop, h0, h1, h2]

theorem sendWithPolicy3_all_transient (x : Nat) (attempt : Nat → AttemptResult)
    (c : Nat → String) (h : ∀ i, attempt i = .transient (c i)) :
    sendWithPolicy (buildRetryPolicy x 3) attempt = .failure (c 3) := by
  simp [sendWithPolicy, buildRetryPolicy, retryLoop, h 0, h 1, h 2, h 3]

theorem decodeListWith_envelopes {es : List (List (String × Json))} {ts : List Json}
    (h : List.Forall₂ (fun fields t => jsonLookup "data" fields = some t) es ts) :
    decodeListWith (decodeDataEnvelope rawJson) (es.map Json.obj)
      = .ok (ts.map fun t => ⟨t⟩) := by
  induction h with
  | nil => rfl
  | cons hft hrest ih =>
    simp only [List.map_cons, decodeListWith, decodeDataEnvelope, hft, rawJson, ih]

/-! Claim theorems. -/

/-- C9: for every endpoint string, construction via new always succeeds
and returns a client holding the endpoint verbatim together with the
configured retry policy; it can neither fail nor inspect the endpoint, and
an invalid endpoint manifests only as a failure of the first operation
that uses it, at which point the failure is tagged with that operation. -/
theorem new_total_and_lazy (endpoint : String) :
    new endpoint = { rpc := endpoint, client := { backoffExponent := 1, maxRetries := 3 } } ∧
    (∀ (net : Network) (c : String), net (specUrl endpoint) 0 = .fatal c →
      chain_id (new endpoint) net = .error (RpcError.new "spec" c)) := by
  refine ⟨rfl, ?_⟩
  intro net c h
  simp only [chain_id, new, buildRetryPolicy]
  rw [sendWithPolicy_first_fatal _ _ h]

/-- C9 witness: instantiation at a concrete endpoint and a network whose
first spec attempt fails fatally. -/
theorem new_total_and_lazy_witness :
    ((fun (_ : String) (_ : Nat) => AttemptResult.fatal "dns failure") (specUrl "http://node") 0
      = AttemptResult.fatal "dns failure") ∧
    chain_id (new "http://node") (fun _ _ => AttemptResult.fatal "dns failure")
      = .error (RpcError.new "spec" "dns failure") :=
  ⟨rfl, (new_total_and_lazy "http://node").2 (fun _ _ => AttemptResult.fatal "dns failure")
    "dns failure" rfl⟩

/-- C2 counterexample: a transport failure of get_block is tagged with the
operation name blocks, which differs from the name block given for this
operation in the external-interface table, so the claim as stated is
false. -/
theorem get_block_operation_tag_counterexample :
    get_block (new "http://node") (fun _ _ => AttemptResult.fatal "connection refused") rawJson 0
      = .error (RpcError.new "blocks" "connection refused") ∧
    (RpcError.new "blocks" "connection refused").operation ≠ "block" := by
  exact ⟨rfl, by decide⟩

/-- C2 amended: every failure, transport or decode, of every operation is
returned as an RpcError whose operation field is, respectively, bootstrap,
updates, finality_update, optimistic_update, blocks and spec; all of these
match the external-interface table except get_block, which is tagged
blocks rather than the table name block. -/
theorem rpc_error_operation_tags {α : Type} (rpc : String) (net : Network)
    (inner : Json → Except String α) (block_root : List Nat) (period count slot : Nat)
    (err : RpcError) :
    (get_bootstrap (new rpc) net inner block_root = .error err → err.operation = "bootstrap") ∧
    (get_updates (new rpc) net inner period count = .error err → err.operation = "updates") ∧
    (get_finality_update (new rpc) net inner = .error err → err.operation = "finality_update") ∧
    (get_optimistic_update (new rpc) net inner = .error err →
      err.operation = "optimistic_update") ∧
    (get_block (new rpc) net inner slot = .error err → err.operation = "blocks") ∧
    (chain_id (new rpc) net = .error err → err.operation = "spec") := by
  refine ⟨?_, ?_, ?_, ?_, ?_, ?_⟩ <;>
  · intro h
    simp only [get_bootstrap, get_updates, get_finality_update, get_optimistic_update,
      get_block, chain_id] at h
    repeat' split at h
    all_goals first
      | (injection h with h2; rw [← h2]; rfl)
      | exact absurd h (by simp)

/-- C2 witness for the amended theorem: a concrete fatal-transport run of
get_block carries the tag blocks. -/
theorem rpc_error_operation_tags_witness :
    get_block (new "http://node") (fun _ _ => AttemptResult.fatal "timeout") rawJson 5
      = .error (RpcError.new "blocks" "timeout") ∧
    (RpcError.new "blocks" "timeout").operation = "blocks" :=
  ⟨rfl, (rpc_error_operation_tags "http://node" (fun _ _ => AttemptResult.fatal "timeout")
    rawJson [] 0 0 5 (RpcError.new "blocks" "timeout")).2.2.2.2.1 rfl⟩

/-- C4: for every well-formed single-object response of shape data: T,
each of get_bootstrap, get_finality_update and get_optimistic_update
returns exactly the inner object with the envelope removed; sibling fields
next to data are ignored and the wrapper never appears in the returned
value. -/
theorem single_object_envelope_unwrapped (rpc : String) (block_root : List Nat)
    (fields : List (String × Json)) (t : Json)
    (hdata : jsonLookup "data" fields = some t) :
    (∀ net : Network, net (bootstrapUrl rpc block_root) 0 = .ok (.obj fields) →
      get_bootstrap (new rpc) net rawJson block_root = .ok t) ∧
    (∀ net : Network, net (finalityUpdateUrl rpc) 0 = .ok (.obj fields) →
      get_finality_update (new rpc) net rawJson = .ok t) ∧
    (∀ net : Network, net (optimisticUpdateUrl rpc) 0 = .ok (.obj fields) →
      get_optimistic_update (new rpc) net rawJson = .ok t) := by
  refine ⟨?_, ?_, ?_⟩ <;>
  · intro net hnet
    simp only [get_bootstrap, get_finality_update, get_optimistic_update, new, buildRetryPolicy]
    rw [sendWithPolicy_first_ok _ _ hnet]
    simp [decodeDataEnvelope, hdata, rawJson]

/-- C4 witness: a concrete bootstrap response with one envelope field. -/
theorem single_object_envelope_unwrapped_witness :
    jsonLookup "data" [("data", Json.num 1)] = some (Json.num 1) ∧
    get_bootstrap (new "http://node")
      (fun _ _ => AttemptResult.ok (Json.obj [("data", Json.num 1)])) rawJson [0]
      = .ok (Json.num 1) :=
  ⟨rfl, (single_object_envelope_unwrapped "http://node" [0] [("data", Json.num 1)]
    (Json.num 1) rfl).1 _ rfl⟩

/-- C8: for every well-formed block response of shape data: (message: B
plus sibling fields), get_block returns exactly the inner block message,
discarding the outer data envelope and any sibling fields such as a
signature or version wrapper. -/
theorem get_block_unwraps_message (rpc : String) (slot : Nat)
    (dfields mfields : List (String × Json)) (bmsg : Json)
    (hdata : jsonLookup "data" dfields = some (.obj mfields))
    (hmsg : jsonLookup "message" mfields = some bmsg) :
    ∀ net : Network, net (blocksUrl rpc slot) 0 = .ok (.obj dfields) →
      get_block (new rpc) net rawJson slot = .ok bmsg := by
  intro net hnet
  simp only [get_block, new, buildRetryPolicy]
  rw [sendWithPolicy_first_ok _ _ hnet]
  simp [decodeDataEnvelope, decodeBeaconBlockData, hdata, hmsg, rawJson]

/-- C8 witness: a concrete block response with a signature sibling and a
version sibling around the message. -/
theorem get_block_unwraps_message_witness :
    jsonLookup "data" [("version", Json.str "deneb"),
      ("data", Json.obj [("message", Json.num 9), ("signature", Json.str "sig")])]
      = some (Json.obj [("message", Json.num 9), ("signature", Json.str "sig")]) ∧
    jsonLookup "message" [("message", Json.num 9), ("signature", Json.str "sig")]
      = some (Json.num 9) ∧
    get_block (new "http://node")
      (fun _ _ => AttemptResult.ok (Json.obj [("version", Json.str "deneb"),
        ("data", Json.obj [("message", Json.num 9), ("signature", Json.str "sig")])]))
      rawJson 42 = .ok (Json.num 9) :=
  ⟨rfl, rfl, get_block_unwraps_message "http://node" 42
    [("version", Json.str "deneb"),
      ("data", Json.obj [("message", Json.num 9), ("signature", Json.str "sig")])]
    [("message", Json.num 9), ("signature", Json.str "sig")] (Json.num 9) rfl rfl _ rfl⟩

/-- C10: a well-formed empty JSON array response makes get_updates return
Ok with the empty sequence, for any inner decoder; an empty result is not
treated as a failure. -/
theorem get_updates_empty_array_ok {α : Type} (rpc : String) (period count : Nat)
    (net : Network) (inner : Json → Except String α)
    (hnet : net (updatesUrl rpc period (min count MAX_REQUEST_LIGHT_CLIENT_UPDATES)) 0
      = .ok (.arr [])) :
    get_updates (new rpc) net inner period count = .ok [] := by
  simp only [get_updates, new, buildRetryPolicy]
  rw [sendWithPolicy_first_ok _ _ hnet]
  simp [decodeListWith]

/-- C10 witness: a concrete empty updates response. -/
theorem get_updates_empty_array_ok_witness :
    ((fun (_ : String) (_ : Nat) => AttemptResult.ok (Json.arr []))
      (updatesUrl "http://node" 3 (min 2 MAX_REQUEST_LIGHT_CLIENT_UPDATES)) 0
      = AttemptResult.ok (Json.arr [])) ∧
    get_updates (new "http://node") (fun _ _ => AttemptResult.ok (Json.arr [])) rawJson 3 2
      = .ok [] :=
  ⟨rfl, get_updates_empty_array_ok "http://node" 3 2
    (fun _ _ => AttemptResult.ok (Json.arr [])) rawJson rfl⟩

/-- C5: for every well-formed updates response consisting of a JSON array
of data envelopes, get_updates returns a sequence whose length equals the
length of the array and whose elements are the inner values in the order
of the array. -/
theorem get_updates_preserves_array (rpc : String) (period count : Nat)
    (es : List (List (String × Json))) (ts : List Json) (net : Network)
    (h : List.Forall₂ (fun fields t => jsonLookup "data" fields = some t) es ts)
    (hnet : net (updatesUrl rpc period (min count MAX_REQUEST_LIGHT_CLIENT_UPDATES)) 0
      = .ok (.arr (es.map Json.obj))) :
    get_updates (new rpc) net rawJson period count = .ok ts ∧ ts.length = es.length := by
  constructor
  · simp only [get_updates, new, buildRetryPolicy]
    rw [sendWithPolicy_first_ok _ _ hnet]
    simp only [decodeListWith_envelopes h, List.map_map]
    rw [show ((fun (d : DataEnvelope Json) => d.data) ∘ fun t => ({ data := t } : DataEnvelope Json))
      = id from rfl, List.map_id]
  · exact (List.Forall₂.length_eq h).symm

/-- C5 witness: a two-element updates array is returned in order. -/
theorem get_updates_preserves_array_witness :
    List.Forall₂ (fun fields t => jsonLookup "data" fields = some t)
      [[("data", Json.num 1)], [("data", Json.num 2)]] [Json.num 1, Json.num 2] ∧
    get_updates (new "http://node")
      (fun _ _ => AttemptResult.ok
        (Json.arr ([[("data", Json.num 1)], [("data", Json.num 2)]].map Json.obj)))
      rawJson 3 2 = .ok [Json.num 1, Json.num 2] :=
  ⟨List.Forall₂.cons rfl (List.Forall₂.cons rfl List.Forall₂.nil),
    (get_updates_preserves_array "http://node" 3 2
      [[("data", Json.num 1)], [("data", Json.num 2)]] [Json.num 1, Json.num 2]
      (fun _ _ => AttemptResult.ok
        (Json.arr ([[("data", Json.num 1)], [("data", Json.num 2)]].map Json.obj)))
      (List.Forall₂.cons rfl (List.Forall₂.cons rfl List.Forall₂.nil)) rfl).1⟩

/-- C6: the URL constructed by get_bootstrap is the endpoint, the
bootstrap path, the literal 0x and the lower-case hex encoding of the
block root with no extra prefix; for a 32-byte root the hex part is
exactly 64 lower-case hex characters, a root of any other length is
hex-encoded and inserted verbatim without length validation, and the
request sent by get_bootstrap consults the network only at this URL. -/
theorem bootstrap_url_hex (rpc : String) (block_root : List Nat)
    (hb : ∀ b ∈ block_root, b < 256) :
    bootstrapUrl rpc block_root
      = rpc ++ "/eth/v1/beacon/light_client/bootstrap/0x" ++ hexEncode block_root ∧
    (hexEncode block_root).length = 2 * block_root.length ∧
    (∀ c ∈ (hexEncode block_root).data, isLowerHexDigit c = true) ∧
    (block_root.length = 32 → (hexEncode block_root).length = 64) ∧
    (∀ {α : Type} (net net' : Network) (inner : Json → Except String α),
      net (bootstrapUrl rpc block_root) = net' (bootstrapUrl rpc block_root) →
      get_bootstrap (new rpc) net inner block_root
        = get_bootstrap (new rpc) net' inner block_root) := by
  refine ⟨rfl, hexEncode_length block_root, hexEncode_chars block_root hb, ?_, ?_⟩
  · intro h32
    rw [hexEncode_length, h32]
  · intro α net net' inner hagree
    simp only [get_bootstrap, new, buildRetryPolicy]
    rw [hagree]

/-- C6 witness: a concrete 32-byte root yields a 64-character lower-case
hex segment. -/
theorem bootstrap_url_hex_witness :
    (∀ b ∈ List.replicate 32 171, b < 256) ∧ (List.replicate 32 171).length = 32 ∧
    (hexEncode (List.replicate 32 171)).length = 64 :=
  ⟨by decide, by decide,
    (bootstrap_url_hex "http://node" (List.replicate 32 171) (by decide)).2.2.2.1 (by decide)⟩

/-- C7: chain_id extracts the DEPOSIT_NETWORK_ID field of the spec object
inside the data envelope, ignoring all other fields; a JSON number n and a
JSON numeric string encoding n both yield Ok n, and a value that cannot be
coerced to an unsigned 64-bit integer yields an RpcError tagged spec. -/
theorem chain_id_numeric_coercion (rpc : String) (dfields sfields : List (String × Json))
    (v : Json) (hdata : jsonLookup "data" dfields = some (.obj sfields))
    (hfield : jsonLookup "DEPOSIT_NETWORK_ID" sfields = some v) :
    (∀ (net : Network) (i : Int), 0 ≤ i → i < 2 ^ 64 → v = .num i →
      net (specUrl rpc) 0 = .ok (.obj dfields) → chain_id (new rpc) net = .ok i.toNat) ∧
    (∀ (net : Network) (s : String) (n : Nat), parseDecimal s = some n → n < 2 ^ 64 →
      v = .str s → net (specUrl rpc) 0 = .ok (.obj dfields) →
      chain_id (new rpc) net = .ok n) ∧
    (∀ (net : Network) (e : String), u64_deserialize v = .error e →
      net (specUrl rpc) 0 = .ok (.obj dfields) →
      chain_id (new rpc) net = .error (RpcError.new "spec" e)) := by
  refine ⟨?_, ?_, ?_⟩
  · intro net i h0 h64 hv hnet
    subst hv
    have hu : u64_deserialize (.num i) = .ok i.toNat := by
      have h64' : i < 18446744073709551616 := lt_of_lt_of_le h64 (by norm_num)
      simp [u64_deserialize, h0, h64']
    simp only [chain_id, new, buildRetryPolicy]
    rw [sendWithPolicy_first_ok _ _ hnet]
    simp [decodeDataEnvelope, decodeSpec, hdata, hfield, hu]
  · intro net s n hs hn hv hnet
    subst hv
    have hn' : n < 18446744073709551616 := lt_of_lt_of_le hn (by norm_num)
    simp only [chain_id, new, buildRetryPolicy]
    rw [sendWithPolicy_first_ok _ _ hnet]
    simp [decodeDataEnvelope, decodeSpec, hdata, hfield, u64_deserialize, hs, hn']
  · intro net e herr hnet
    simp only [chain_id, new, buildRetryPolicy]
    rw [sendWithPolicy_first_ok _ _ hnet]
    simp [decodeDataEnvelope, decodeSpec, hdata, hfield, herr]

/-- C7 witness: a spec response carrying DEPOSIT_NETWORK_ID as the numeric
string 12345 next to an unrelated field yields chain id 12345. -/
theorem chain_id_numeric_coercion_witness :
    jsonLookup "data"
      [("data", Json.obj [("SECONDS_PER_SLOT", Json.num 12),
        ("DEPOSIT_NETWORK_ID", Json.str "12345")])]
      = some (Json.obj [("SECONDS_PER_SLOT", Json.num 12),
        ("DEPOSIT_NETWORK_ID", Json.str "12345")]) ∧
    parseDecimal "12345" = some 12345 ∧ 12345 < 2 ^ 64 ∧
    chain_id (new "http://node")
      (fun _ _ => AttemptResult.ok (Json.obj [("data",
        Json.obj [("SECONDS_PER_SLOT", Json.num 12),
          ("DEPOSIT_NETWORK_ID", Json.str "12345")])])) = .ok 12345 :=
  ⟨rfl, by decide, by decide,
    (chain_id_numeric_coercion "http://node"
      [("data", Json.obj [("SECONDS_PER_SLOT", Json.num 12),
        ("DEPOSIT_NETWORK_ID", Json.str "12345")])]
      [("SECONDS_PER_SLOT", Json.num 12), ("DEPOSIT_NETWORK_ID", Json.str "12345")]
      (Json.str "12345") rfl rfl).2.1
      (fun _ _ => AttemptResult.ok (Json.obj [("data",
        Json.obj [("SECONDS_PER_SLOT", Json.num 12),
          ("DEPOSIT_NETWORK_ID", Json.str "12345")])]))
      "12345" 12345 (by decide) (by decide) rfl rfl⟩

/-- C1: for every call of get_updates, the count query parameter of the
constructed updates URL is the clamped count: the protocol maximum when
the caller passes more, and the caller-supplied count otherwise; and the
clamp happens before the request is sent, since the operation consults the
network only at the clamped URL. -/
theorem get_updates_count_clamped (rpc : String) (period count : Nat)
    (_hcount : count < 256) :
    (MAX_REQUEST_LIGHT_CLIENT_UPDATES < count →
      numericSuffix (updatesUrl rpc period (min count MAX_REQUEST_LIGHT_CLIENT_UPDATES))
        = natRepr MAX_REQUEST_LIGHT_CLIENT_UPDATES) ∧
    (count ≤ MAX_REQUEST_LIGHT_CLIENT_UPDATES →
      numericSuffix (updatesUrl rpc period (min count MAX_REQUEST_LIGHT_CLIENT_UPDATES))
        = natRepr count) ∧
    (∀ {α : Type} (net net' : Network) (inner : Json → Except String α),
      net (updatesUrl rpc period (min count MAX_REQUEST_LIGHT_CLIENT_UPDATES))
        = net' (updatesUrl rpc period (min count MAX_REQUEST_LIGHT_CLIENT_UPDATES)) →
      get_updates (new rpc) net inner period count
        = get_updates (new rpc) net' inner period count) := by
  refine ⟨?_, ?_, ?_⟩
  · intro h
    rw [numericSuffix_updatesUrl, Nat.min_eq_right (Nat.le_of_lt h)]
  · intro h
    rw [numericSuffix_updatesUrl, Nat.min_eq_left h]
  · intro α net net' inner hagree
    simp only [get_updates, new, buildRetryPolicy]
    rw [hagree]

/-- C1 witness: a caller-supplied count of 200 is clamped, so the count
query parameter of the URL reads the protocol maximum. -/
theorem get_updates_count_clamped_witness :
    (200 : Nat) < 256 ∧ MAX_REQUEST_LIGHT_CLIENT_UPDATES < 200 ∧
    numericSuffix (updatesUrl "http://node" 7 (min 200 MAX_REQUEST_LIGHT_CLIENT_UPDATES))
      = natRepr MAX_REQUEST_LIGHT_CLIENT_UPDATES :=
  ⟨by decide, by decide,
    (get_updates_count_clamped "http://node" 7 200 (by decide)).1 (by decide)⟩

/-- C3: the constructor installs a retry policy with backoff exponent 1
and at most 3 retries; a non-transient failure on the first attempt is
never retried; an operation whose first attempts fail transiently and
which succeeds within the retry budget behaves exactly as if the network
had succeeded at once; and an operation all of whose attempts fail
transiently returns an RpcError tagged with that operation, carrying the
cause of the final attempt. -/
theorem retry_policy_semantics (e : String) :
    ((new e).client.backoffExponent = 1 ∧ (new e).client.maxRetries = 3) ∧
    (∀ (attempt : Nat → AttemptResult) (c : String), attempt 0 = .fatal c →
      sendWithPolicy (new e).client attempt = .failure c) ∧
    (∀ {α : Type} (net : Network) (inner : Json → Except String α) (period count : Nat)
        (c0 c1 : String) (body : Json),
      net (updatesUrl e period (min count MAX_REQUEST_LIGHT_CLIENT_UPDATES)) 0
        = .transient c0 →
      net (updatesUrl e period (min count MAX_REQUEST_LIGHT_CLIENT_UPDATES)) 1
        = .transient c1 →
      net (updatesUrl e period (min count MAX_REQUEST_LIGHT_CLIENT_UPDATES)) 2 = .ok body →
      get_updates (new e) net inner period count
        = get_updates (new e) (fun _ _ => AttemptResult.ok body) inner period count) ∧
    (∀ {α : Type} (net : Network) (inner : Json → Except String α) (period count : Nat)
        (c : Nat → String),
      (∀ i, net (updatesUrl e period (min count MAX_REQUEST_LIGHT_CLIENT_UPDATES)) i
        = .transient (c i)) →
      get_updates (new e) net inner period count
        = .error (RpcError.new "updates" (c 3))) := by
  refine ⟨⟨rfl, rfl⟩, ?_, ?_, ?_⟩
  · intro attempt c h
    exact sendWithPolicy_first_fatal _ _ h
  · intro α net inner period count c0 c1 body h0 h1 h2
    simp only [get_updates, new]
    rw [sendWithPolicy3_two_transient_then_ok 1 _ h0 h1 h2,
      sendWithPolicy_first_ok _ _
        (rfl : (fun (_ : String) (_ : Nat) => AttemptResult.ok body)
          (updatesUrl e period (min count MAX_REQUEST_LIGHT_CLIENT_UPDATES)) 0
          = AttemptResult.ok body)]
  · intro α net inner period count c h
    simp only [get_updates, new]
    rw [sendWithPolicy3_all_transient 1 _ c h]

/-- C3 witness: two transient failures followed by a success on the third
attempt make get_updates behave as if the network had succeeded at
once. -/
theorem retry_policy_semantics_witness :
    ((fun (_ : String) (i : Nat) => match i with
        | 0 => AttemptResult.transient "t0"
        | 1 => AttemptResult.transient "t1"
        | _ => AttemptResult.ok (Json.arr []))
      (updatesUrl "http://node" 3 (min 2 MAX_REQUEST_LIGHT_CLIENT_UPDATES)) 0
      = AttemptResult.transient "t0") ∧
    ((fun (_ : String) (i : Nat) => match i with
        | 0 => AttemptResult.transient "t0"
        | 1 => AttemptResult.transient "t1"
        | _ => AttemptResult.ok (Json.arr []))
      (updatesUrl "http://node" 3 (min 2 MAX_REQUEST_LIGHT_CLIENT_UPDATES)) 1
      = AttemptResult.transient "t1") ∧
    ((fun (_ : String) (i : Nat) => match i with
        | 0 => AttemptResult.transient "t0"
        | 1 => AttemptResult.transient "t1"
        | _ => AttemptResult.ok (Json.arr []))
      (updatesUrl "http://node" 3 (min 2 MAX_REQUEST_LIGHT_CLIENT_UPDATES)) 2
      = AttemptResult.ok (Json.arr [])) ∧
    get_updates (new "http://node")
      (fun _ i => match i with
        | 0 => AttemptResult.transient "t0"
        | 1 => AttemptResult.transient "t1"
        | _ => AttemptResult.ok (Json.arr []))
      rawJson 3 2
      = get_updates (new "http://node") (fun _ _ => AttemptResult.ok (Json.arr []))
          rawJson 3 2 :=
  ⟨rfl, rfl, rfl,
    (retry_policy_semantics "http://node").2.2.1
      (fun _ i => match i with
        | 0 => AttemptResult.transient "t0"
        | 1 => AttemptResult.transient "t1"
        | _ => AttemptResult.ok (Json.arr []))
      rawJson 3 2 "t0" "t1" (Json.arr []) rfl rfl rfl⟩

end NimbusRpcModel
